import Mathlib

/-!
Verification development for `matplotlib_sample.py`.

The script is shallowly embedded as follows.  NumPy's globally seeded
pseudo-random source is modelled by an abstract `EntropySource`: a pair of
functions giving, for every seed and every position in the seeded stream, the
value of the corresponding standard-normal (`gauss`) or uniform-[0,1) (`unif`)
draw.  The global RNG state is a pair (current seed, current position);
`np.random.seed k` resets it to `(k, 0)` and every draw of `n` values advances
the position by `n`.  NumPy float arrays are `List ℝ`; matplotlib figures are
records listing the drawing primitives invoked with their arguments.
-/

open Real

/-- Abstract model of the pseudo-random generator algorithm: for each seed, the
infinite stream of standard-normal draws (`gauss`) and uniform-[0,1) draws
(`unif`), indexed by position in the stream. -/
structure EntropySource where
  gauss : Nat → Nat → ℝ
  unif : Nat → Nat → ℝ

/-- Global NumPy RNG state: the active seed and the position reached in the
seeded stream. -/
structure RNGState where
  seed : Nat
  pos : Nat

/-- Model of `np.random.seed k`: the previous state is discarded and the
stream restarts at position 0 for seed `k`. -/
def npSeed (k : Nat) (_s : RNGState) : RNGState := ⟨k, 0⟩

/-- Model of `np.random.randn n` / `np.random.normal 0 1 n`: the next `n`
standard-normal draws of the seeded stream. -/
def drawGaussList (e : EntropySource) (n : Nat) (s : RNGState) : List ℝ × RNGState :=
  ((List.range n).map (fun i => e.gauss s.seed (s.pos + i)), ⟨s.seed, s.pos + n⟩)

/-- Model of `np.random.rand n`: the next `n` uniform-[0,1) draws. -/
def drawUnifList (e : EntropySource) (n : Nat) (s : RNGState) : List ℝ × RNGState :=
  ((List.range n).map (fun i => e.unif s.seed (s.pos + i)), ⟨s.seed, s.pos + n⟩)

/-- Model of `np.random.uniform lo hi n`: affine rescaling of `n` uniform
draws. -/
noncomputable def drawUniformList (e : EntropySource) (lo hi : ℝ) (n : Nat) (s : RNGState) :
    List ℝ × RNGState :=
  ((List.range n).map (fun i => lo + (hi - lo) * e.unif s.seed (s.pos + i)), ⟨s.seed, s.pos + n⟩)

/-- Model of `np.linspace a b n`: `n` evenly spaced values from `a` to `b`,
endpoints included. -/
noncomputable def linspace (a b : ℝ) (n : Nat) : List ℝ :=
  (List.range n).map (fun (i : ℕ) => a + (b - a) * (i : ℝ) / ((n : ℝ) - 1))

/-- Model of `np.mean`. -/
noncomputable def listMean (l : List ℝ) : ℝ := l.sum / (l.length : ℝ)

/-- The damped sine `sin(x) * exp(-x/5)` plotted by `create_advanced_plot`. -/
noncomputable def dampedSine (t : ℝ) : ℝ := Real.sin t * Real.exp (-t / 5)

/-- The damped cosine `cos(x) * exp(-x/8)` plotted by `create_advanced_plot`. -/
noncomputable def dampedCos (t : ℝ) : ℝ := Real.cos t * Real.exp (-t / 8)

/-- Model of Python `int()` applied to a float: truncation toward zero. -/
noncomputable def pyIntR (x : ℝ) : ℤ := if 0 ≤ x then ⌊x⌋ else -⌊-x⌋

/-- Model of the `%1.1f` format directive applied to a nonnegative float:
the numeral rounded to one decimal place, rendered with one digit after the
point. -/
noncomputable def fmt1fR (x : ℝ) : String :=
  toString (round (x * 10) / 10) ++ (".") ++ toString ((round (x * 10)).natAbs % 10)

/-- Model of the `:.2f` format directive applied to a float: two digits after
the point. -/
noncomputable def fmt2fR (x : ℝ) : String :=
  toString (round (x * 100) / 100) ++ (".") ++
    (if (round (x * 100)).natAbs % 100 < 10 then ("0") else ("")) ++
    toString ((round (x * 100)).natAbs % 100)

/-- The bundle returned by `create_sample_data`: one field per key of the
Python dict. -/
structure SampleData where
  x_line : List ℝ
  y_sin : List ℝ
  y_cos : List ℝ
  x_scatter : List ℝ
  y_scatter : List ℝ
  colors_scatter : List ℝ
  sizes_scatter : List ℝ
  categories : List String
  values : List ℤ
  hist_data : List ℝ
  pie_labels : List String
  pie_sizes : List ℤ

/-- Embedding of `create_sample_data`: seeds the RNG with 42, then performs the
draws in source order (x_scatter, the scatter noise, colors, sizes, histogram
data). -/
noncomputable def create_sample_data (e : EntropySource) (s0 : RNGState) :
    SampleData × RNGState :=
  let s1 := npSeed 42 s0
  let x_line := linspace 0 10 100
  let y_sin := x_line.map Real.sin
  let y_cos := x_line.map Real.cos
  let n_points := 50
  let xsc := drawGaussList e n_points s1
  let noise := drawGaussList e n_points xsc.2
  let y_scatter := List.zipWith (fun x n => 2 * x + n) xsc.1 noise.1
  let colors := drawUnifList e n_points noise.2
  let sizes := drawUniformList e 50 300 n_points colors.2
  let categories := [("A"), ("B"), ("C"), ("D"), ("E")]
  let values : List ℤ := [23, 45, 56, 78, 32]
  let hist := drawGaussList e 1000 sizes.2
  let pie_labels := [("Chocolate"), ("Vanilla"), ("Strawberry"), ("Mint")]
  let pie_sizes : List ℤ := [30, 25, 20, 25]
  (⟨x_line, y_sin, y_cos, xsc.1, y_scatter, colors.1, sizes.1,
    categories, values, hist.1, pie_labels, pie_sizes⟩, hist.2)

/-- One drawing primitive invoked on an axes object, with the data-bearing
arguments it received. -/
inductive PlotElement where
  | lineSeries (xs ys : List ℝ) (label : String)
  | scatterSeries (xs ys colors sizes : List ℝ)
  | barSeries (cats : List String) (heights : List ℝ)
  | barText (x y : ℝ) (value : ℤ) (content : String)
  | histSeries (data : List ℝ) (bins : Nat)
  | vertLine (x : ℝ) (label : String)
  | pieSeries (fracs : List ℝ) (labels autoLabels : List String) (startAngle : ℝ)
  | fillBetween (xs ys1 ys2 : List ℝ)
  | arrowNote (content : String) (targetX targetY textX textY : ℝ)
  | textBox (x y : ℝ) (content : String)
  | stepSeries (xs ys : List ℝ)
  | colorbarMark (label : String)

/-- One axes (subplot) of a figure: its title and the primitives drawn on it. -/
structure AxesModel where
  title : String
  elements : List PlotElement

/-- A matplotlib figure: optional suptitle and the list of axes it contains. -/
structure Figure where
  suptitle : Option String
  axesList : List AxesModel

/-- Embedding of `create_line_plot`.  The builder only reads the bundle; it is
returned unchanged alongside the figure so that absence of mutation is part of
the model. -/
noncomputable def create_line_plot (dat : SampleData) : Figure × SampleData :=
  (⟨none,
    [⟨("Trigonometric Functions"),
      [PlotElement.lineSeries dat.x_line dat.y_sin ("sin(x)"),
       PlotElement.lineSeries dat.x_line dat.y_cos ("cos(x)")]⟩]⟩, dat)

/-- Embedding of `create_scatter_plot`. -/
noncomputable def create_scatter_plot (dat : SampleData) : Figure × SampleData :=
  (⟨none,
    [⟨("Scatter Plot with Color and Size Variations"),
      [PlotElement.scatterSeries dat.x_scatter dat.y_scatter dat.colors_scatter
         dat.sizes_scatter,
       PlotElement.colorbarMark ("Color Scale")]⟩]⟩, dat)

/-- Embedding of `create_bar_chart`: the bar heights are the bundle values and
each bar `i` receives a text annotation at height `values i + 1` displaying
`int(height)`. -/
noncomputable def create_bar_chart (dat : SampleData) : Figure × SampleData :=
  (⟨none,
    [⟨("Sample Bar Chart"),
      PlotElement.barSeries dat.categories (dat.values.map (fun (v : ℤ) => (v : ℝ)))
        :: dat.values.enum.map (fun p =>
             PlotElement.barText ((p.1 : ℝ)) (((p.2 : ℝ)) + 1) (pyIntR ((p.2 : ℝ)))
               (toString (pyIntR ((p.2 : ℝ)))))⟩]⟩, dat)

/-- Embedding of `create_histogram`: a 30-bin histogram of the bundle's
`hist_data` plus a vertical dashed line at the sample mean, labelled with the
mean to two decimal places. -/
noncomputable def create_histogram (dat : SampleData) : Figure × SampleData :=
  (⟨none,
    [⟨("Normal Distribution Histogram"),
      [PlotElement.histSeries dat.hist_data 30,
       PlotElement.vertLine (listMean dat.hist_data)
         (("Mean: ") ++ fmt2fR (listMean dat.hist_data))]⟩]⟩, dat)

/-- Embedding of `create_pie_chart`: wedge fractions are the sizes normalized
by their sum, and each wedge's `autopct` label is its percentage formatted by
`%1.1f` followed by a percent sign, per matplotlib's autopct contract. -/
noncomputable def create_pie_chart (dat : SampleData) : Figure × SampleData :=
  (⟨none,
    [⟨("Ice Cream Flavor Preferences"),
      [PlotElement.pieSeries
         (dat.pie_sizes.map (fun (v : ℤ) =>
            (v : ℝ) / ((dat.pie_sizes.map (fun (w : ℤ) => (w : ℝ))).sum)))
         dat.pie_labels
         (dat.pie_sizes.map (fun (v : ℤ) =>
            fmt1fR (100 * (v : ℝ) / ((dat.pie_sizes.map (fun (w : ℤ) => (w : ℝ))).sum)) ++ ("%")))
         90]⟩]⟩, dat)

/-- Embedding of `create_subplot_grid`: four axes (sine wave, exponential
decay, a fresh 50-point random scatter, and the step function
`floor(x) mod 2`). -/
noncomputable def create_subplot_grid (e : EntropySource) (s0 : RNGState) :
    Figure × RNGState :=
  let xs := drawGaussList e 50 s0
  let ys := drawGaussList e 50 xs.2
  (⟨some ("Subplot Grid Example"),
    [⟨("Sine Wave"),
      [PlotElement.lineSeries (linspace 0 (4 * π) 100)
         ((linspace 0 (4 * π) 100).map Real.sin) ("")]⟩,
     ⟨("Exponential Decay"),
      [PlotElement.lineSeries (linspace 0 5 100)
         ((linspace 0 5 100).map (fun x => Real.exp (-x))) ("")]⟩,
     ⟨("Random Scatter"),
      [PlotElement.scatterSeries xs.1 ys.1 [] []]⟩,
     ⟨("Step Function"),
      [PlotElement.stepSeries (linspace 0 10 100)
         ((linspace 0 10 100).map (fun x => (((⌊x⌋ % 2 : ℤ) : ℝ))))]⟩]⟩, ys.2)

/-- Embedding of `create_advanced_plot`: the two damped series over 200 points
on [0,10], the shaded region, the arrow annotation whose target is
`(π/2, exp (-π/10))`, and the fixed text box. -/
noncomputable def create_advanced_plot : Figure :=
  ⟨none,
   [⟨("Advanced Matplotlib Plot with Annotations"),
     [PlotElement.lineSeries (linspace 0 10 200) ((linspace 0 10 200).map dampedSine)
        ("Damped Sine"),
      PlotElement.lineSeries (linspace 0 10 200) ((linspace 0 10 200).map dampedCos)
        ("Damped Cosine"),
      PlotElement.fillBetween (linspace 0 10 200) ((linspace 0 10 200).map dampedSine)
        ((linspace 0 10 200).map dampedCos),
      PlotElement.arrowNote ("Maximum Point") (π / 2) (Real.exp (-π / 10)) 4 0.8,
      PlotElement.textBox 0.02 0.98 ("Damped oscillations\nwith exponential decay")]⟩]⟩

/-- Lowercasing of a string, per Python `str.lower` on ASCII chart names. -/
def pyLower (s : String) : String := ⟨s.data.map Char.toLower⟩

/-- Python `str.replace` for a single-character pattern and single-character
replacement. -/
def replaceChar (a b : Char) (s : String) : String :=
  ⟨s.data.map (fun c => if c = a then b else c)⟩

/-- Filename derivation in `main`: lowercase the chart name, replace spaces
with underscores, append `.png`. -/
def toFilename (name : String) : String :=
  replaceChar (' ') ('_') (pyLower name) ++ (".png")

/-- One `fig.savefig` invocation: target filename, `dpi` argument, and whether
`bbox_inches='tight'` was passed. -/
structure SaveCall where
  filename : String
  dpi : Nat
  bboxTight : Bool

/-- The observable outcome of one run of `main`: the ordered chart-name/figure
pairs, the save calls performed, and the final RNG state. -/
structure MainRun where
  plots : List (String × Figure)
  saves : List SaveCall
  rngEnd : RNGState

/-- Embedding of `main`: build the bundle once, invoke the seven builders in
dict order threading the shared bundle and the RNG state, then save every
figure at 300 DPI with a tight bounding box under the derived filename. -/
noncomputable def main (e : EntropySource) (s0 : RNGState) : MainRun :=
  let dat := create_sample_data e s0
  let p1 := create_line_plot dat.1
  let p2 := create_scatter_plot p1.2
  let p3 := create_bar_chart p2.2
  let p4 := create_histogram p3.2
  let p5 := create_pie_chart p4.2
  let p6 := create_subplot_grid e dat.2
  let p7 := create_advanced_plot
  let plots := [(("Line Plot"), p1.1), (("Scatter Plot"), p2.1), (("Bar Chart"), p3.1),
    (("Histogram"), p4.1), (("Pie Chart"), p5.1), (("Subplot Grid"), p6.1),
    (("Advanced Plot"), p7)]
  ⟨plots, plots.map (fun p => ⟨toFilename p.1, 300, true⟩), p6.2⟩

/-- All primitives drawn anywhere in a figure, in axes order. -/
def figElems (f : Figure) : List PlotElement := f.axesList.flatMap AxesModel.elements

/-- The autopct labels of the first pie series of a figure. -/
def figPieLabels (f : Figure) : List String :=
  ((figElems f).filterMap (fun el =>
    match el with
    | PlotElement.pieSeries _ _ ls _ => some ls
    | _ => none)).headD []

/-- The numeric values displayed by the bar-annotation texts of a figure. -/
def barAnnotValues (f : Figure) : List ℤ :=
  (figElems f).filterMap (fun el =>
    match el with
    | PlotElement.barText _ _ v _ => some v
    | _ => none)

/-- The x and y data of the first scatter series of a figure. -/
def figScatterXY (f : Figure) : List ℝ × List ℝ :=
  ((figElems f).filterMap (fun el =>
    match el with
    | PlotElement.scatterSeries xs ys _ _ => some (xs, ys)
    | _ => none)).headD ([], [])

/-- The x and y data of the first step series of a figure. -/
def figStep (f : Figure) : List ℝ × List ℝ :=
  ((figElems f).filterMap (fun el =>
    match el with
    | PlotElement.stepSeries xs ys => some (xs, ys)
    | _ => none)).headD ([], [])

/-- The target coordinate of the first arrow annotation of a figure. -/
def figArrowTarget (f : Figure) : ℝ × ℝ :=
  ((figElems f).filterMap (fun el =>
    match el with
    | PlotElement.arrowNote _ tx ty _ _ => some (tx, ty)
    | _ => none)).headD (0, 0)

/-- The random-scatter panel data of the subplot-grid figure produced by a run
of `main` (the sixth chart in dict order). -/
noncomputable def runSubplotScatter (e : EntropySource) (s0 : RNGState) :
    List ℝ × List ℝ :=
  figScatterXY (((main e s0).plots.map Prod.snd).getD 5 ⟨none, []⟩)

/-- A concrete entropy source used to instantiate universally quantified
statements. -/
noncomputable def zeroEntropy : EntropySource := ⟨fun _ _ => 0, fun _ _ => 0⟩

/-- Zipping two maps over the same list pointwise combines the mapped values. -/
theorem zipWith_map_same {α β γ δ : Type _} (f : β → γ → δ) (g : α → β) (h : α → γ)
    (l : List α) :
    List.zipWith f (l.map g) (l.map h) = l.map (fun x => f (g x) (h x)) := by
  induction l with
  | nil => rfl
  | cons a t ih => simp [ih]

/-- A `filterMap` whose function always succeeds is a `map`. -/
theorem filterMap_eq_map_of_some {α β : Type _} (f : α → β) (l : List α) :
    l.filterMap (fun a => some (f a)) = l.map f := by
  induction l with
  | nil => rfl
  | cons a t ih => simp [List.filterMap_cons, ih]

/-- Indexing with default into a map over `List.range`. -/
theorem getD_map_range (F : Nat → ℝ) (d : ℝ) (n i : Nat) (h : i < n) :
    ((List.range n).map F).getD i d = F i := by
  rw [List.getD_eq_getElem?_getD]
  simp [List.getElem?_range, h]

/-- Python `int()` of an exact integer float is that integer. -/
theorem pyIntR_intCast (n : ℤ) : pyIntR ((n : ℝ)) = n := by
  unfold pyIntR
  rcases le_or_lt 0 ((n : ℝ)) with h | h
  · rw [if_pos h, Int.floor_intCast]
  · rw [if_neg (not_le.mpr h), ← Int.cast_neg, Int.floor_intCast, neg_neg]

/-- The `%1.1f` model applied to an exact integer float renders the integer
followed by a zero tenths digit. -/
theorem fmt1fR_intCast (n : ℤ) : fmt1fR ((n : ℝ)) = toString n ++ (".") ++ ("0") := by
  unfold fmt1fR
  have h : ((n : ℝ)) * 10 = (((n * 10 : ℤ)) : ℝ) := by push_cast; ring
  rw [h, round_intCast]
  have h1 : n * 10 / 10 = n := by omega
  have h2 : (n * 10).natAbs % 10 = 0 := by omega
  rw [h1, h2]
  rfl

/-- The damped sine has the expected derivative everywhere. -/
theorem dampedSine_hasDerivAt (t : ℝ) :
    HasDerivAt dampedSine
      (Real.cos t * Real.exp (-t / 5) + Real.sin t * (Real.exp (-t / 5) * (-1 / 5))) t := by
  have hlin : HasDerivAt (fun x : ℝ => -x / 5) (-1 / 5) t := by
    simpa using (hasDerivAt_id t).neg.div_const 5
  have hexp : HasDerivAt (fun x : ℝ => Real.exp (-x / 5)) (Real.exp (-t / 5) * (-1 / 5)) t :=
    hlin.exp
  unfold dampedSine
  exact (Real.hasDerivAt_sin t).mul hexp

/-- The derivative of the damped sine is negative between 1.5 and π/2. -/
theorem dampedSine_deriv_neg_aux (x : ℝ) (hx : x ∈ Set.Ioo (1.5 : ℝ) (π / 2)) :
    Real.cos x * Real.exp (-x / 5) + Real.sin x * (Real.exp (-x / 5) * (-1 / 5)) < 0 := by
  obtain ⟨h1, h2⟩ := hx
  have hπ3 : (3 : ℝ) < π := Real.pi_gt_three
  have hπ4 : π < 3.1416 := Real.pi_lt_d4
  have hE : 0 < Real.exp (-x / 5) := Real.exp_pos _
  have hcosx : Real.cos x < Real.cos 1.5 := by
    apply Real.strictAntiOn_cos ⟨by norm_num, by linarith⟩ ⟨by linarith, by linarith⟩ h1
  have hcos15 : Real.cos 1.5 < 0.0708 := by
    have hs : Real.sin (π / 2 - 1.5) = Real.cos 1.5 := Real.sin_pi_div_two_sub 1.5
    have hlt : Real.sin (π / 2 - 1.5) < π / 2 - 1.5 := Real.sin_lt (by linarith)
    linarith
  have hsinx : Real.sin 1.5 < Real.sin x := by
    apply Real.strictMonoOn_sin ⟨by linarith, by linarith⟩ ⟨by linarith, le_of_lt h2⟩ h1
  have hsin15 : (0.7 : ℝ) < Real.sin 1.5 := by
    have hq : Real.sin (π / 4) < Real.sin 1.5 := by
      apply Real.strictMonoOn_sin ⟨by linarith, by linarith⟩ ⟨by linarith, by linarith⟩
        (by linarith)
    have hsq : Real.sin (π / 4) = Real.sqrt 2 / 2 := Real.sin_pi_div_four
    have h14 : (1.4 : ℝ) ≤ Real.sqrt 2 := by
      nlinarith [Real.sq_sqrt (by norm_num : (0 : ℝ) ≤ 2), Real.sqrt_nonneg 2]
    linarith
  have hkey : Real.cos x - Real.sin x / 5 < 0 := by linarith
  have hfact : Real.cos x * Real.exp (-x / 5) + Real.sin x * (Real.exp (-x / 5) * (-1 / 5))
      = Real.exp (-x / 5) * (Real.cos x - Real.sin x / 5) := by ring
  rw [hfact]
  exact mul_neg_of_pos_of_neg hE hkey

/-- The damped sine is strictly decreasing on [1.5, π/2]. -/
theorem dampedSine_strictAntiOn : StrictAntiOn dampedSine (Set.Icc (1.5 : ℝ) (π / 2)) := by
  apply strictAntiOn_of_deriv_neg (convex_Icc _ _)
  · apply Continuous.continuousOn
    unfold dampedSine
    fun_prop
  · intro x hx
    rw [interior_Icc] at hx
    rw [(dampedSine_hasDerivAt x).deriv]
    exact dampedSine_deriv_neg_aux x hx

/-- The damped sine does not attain a local maximum (within [0, 10]) at π/2:
it is still strictly decreasing there, so points slightly to the left exceed
its value. -/
theorem dampedSine_not_localMaxOn :
    ¬ IsLocalMaxOn dampedSine (Set.Icc (0 : ℝ) 10) (π / 2) := by
  intro h
  have hπ3 : (3 : ℝ) < π := Real.pi_gt_three
  have hπ4 : π < 3.1416 := Real.pi_lt_d4
  have h15 : (1.5 : ℝ) < π / 2 := by linarith
  have hclos : (π / 2) ∈ closure (Set.Ioo (1.5 : ℝ) (π / 2)) := by
    rw [closure_Ioo (ne_of_lt h15)]
    exact ⟨le_of_lt h15, le_refl _⟩
  have hne : (nhdsWithin (π / 2) (Set.Ioo (1.5 : ℝ) (π / 2))).NeBot :=
    mem_closure_iff_nhdsWithin_neBot.mp hclos
  have hsub : Set.Ioo (1.5 : ℝ) (π / 2) ⊆ Set.Icc (0 : ℝ) 10 := by
    intro x hx
    exact ⟨by linarith [hx.1], by linarith [hx.2]⟩
  have hbig : ∀ᶠ x in nhdsWithin (π / 2) (Set.Icc (0 : ℝ) 10),
      dampedSine x ≤ dampedSine (π / 2) := h
  have hev1 : ∀ᶠ x in nhdsWithin (π / 2) (Set.Ioo (1.5 : ℝ) (π / 2)),
      dampedSine x ≤ dampedSine (π / 2) :=
    Filter.Eventually.filter_mono (nhdsWithin_mono _ hsub) hbig
  have hev2 : ∀ᶠ x in nhdsWithin (π / 2) (Set.Ioo (1.5 : ℝ) (π / 2)),
      x ∈ Set.Ioo (1.5 : ℝ) (π / 2) := eventually_mem_nhdsWithin
  haveI := hne
  obtain ⟨x, hle, hx⟩ := (hev1.and hev2).exists
  have hgt : dampedSine (π / 2) < dampedSine x :=
    dampedSine_strictAntiOn ⟨le_of_lt hx.1, le_of_lt hx.2⟩ ⟨le_of_lt h15, le_refl _⟩ hx.2
  linarith

/-- C1: every invocation of `create_sample_data` (which seeds with 42) returns
a bundle whose collections have exactly the lengths 100 (x_line, y_sin,
y_cos), 50 (x_scatter, y_scatter, colors_scatter, sizes_scatter), 5
(categories, values), 1000 (hist_data), and 4 (pie_labels, pie_sizes). -/
theorem c1_bundle_lengths (e : EntropySource) (s : RNGState) :
    ((create_sample_data e s).1).x_line.length = 100 ∧
    ((create_sample_data e s).1).y_sin.length = 100 ∧
    ((create_sample_data e s).1).y_cos.length = 100 ∧
    ((create_sample_data e s).1).x_scatter.length = 50 ∧
    ((create_sample_data e s).1).y_scatter.length = 50 ∧
    ((create_sample_data e s).1).colors_scatter.length = 50 ∧
    ((create_sample_data e s).1).sizes_scatter.length = 50 ∧
    ((create_sample_data e s).1).categories.length = 5 ∧
    ((create_sample_data e s).1).values.length = 5 ∧
    ((create_sample_data e s).1).hist_data.length = 1000 ∧
    ((create_sample_data e s).1).pie_labels.length = 4 ∧
    ((create_sample_data e s).1).pie_sizes.length = 4 := by
  refine ⟨?_, ?_, ?_, ?_, ?_, ?_, ?_, ?_, ?_, ?_, ?_, ?_⟩ <;>
    simp only [create_sample_data, drawGaussList, drawUnifList, drawUniformList, linspace,
      List.length_map, List.length_range, List.length_zipWith, List.length_cons,
      List.length_nil, Nat.min_self]

/-- C2: `create_sample_data` reseeds the random source with 42 before drawing,
so any two invocations return identical results (bundle and final RNG state)
regardless of the incoming RNG state. -/
theorem c2_generator_determinism (e : EntropySource) (s1 s2 : RNGState) :
    create_sample_data e s1 = create_sample_data e s2 := rfl

/-- C3: one run of `main` performs exactly seven save calls, whose filenames
are the chart display names lowercased with spaces replaced by underscores and
`.png` appended, yielding seven distinct names, each saved with `dpi = 300`
and a tight bounding box. -/
theorem c3_save_calls (e : EntropySource) (s : RNGState) :
    (main e s).saves.map SaveCall.filename =
      [("line_plot.png"), ("scatter_plot.png"), ("bar_chart.png"), ("histogram.png"),
       ("pie_chart.png"), ("subplot_grid.png"), ("advanced_plot.png")] ∧
    ((main e s).saves.map SaveCall.filename).Nodup ∧
    (main e s).saves.map (fun c => (c.dpi, c.bboxTight)) = List.replicate 7 (300, true) := by
  have h : (main e s).saves.map SaveCall.filename =
      [("line_plot.png"), ("scatter_plot.png"), ("bar_chart.png"), ("histogram.png"),
       ("pie_chart.png"), ("subplot_grid.png"), ("advanced_plot.png")] := rfl
  refine ⟨h, ?_, rfl⟩
  rw [h]
  decide

/-- C4: the pie chart's autopct labels equal `100 * size / sum(sizes)` under
the `%1.1f%%` format, which for the bundle sizes [30, 25, 20, 25] gives
exactly 30.0%, 25.0%, 20.0%, 25.0%, and the sizes sum to 100. -/
theorem c4_pie_percentages (e : EntropySource) (s : RNGState) :
    figPieLabels ((create_pie_chart (create_sample_data e s).1).1) =
      [("30.0%"), ("25.0%"), ("20.0%"), ("25.0%")] ∧
    ((create_sample_data e s).1).pie_sizes.sum = 100 := by
  constructor
  · have hsz : ((create_sample_data e s).1).pie_sizes = [30, 25, 20, 25] := rfl
    have hlabels : figPieLabels ((create_pie_chart (create_sample_data e s).1).1) =
        ((create_sample_data e s).1).pie_sizes.map (fun (v : ℤ) =>
          fmt1fR (100 * (v : ℝ) /
            ((((create_sample_data e s).1).pie_sizes.map (fun (w : ℤ) => (w : ℝ))).sum)) ++
            ("%")) :=
      rfl
    rw [hlabels, hsz]
    have hsum : ((([30, 25, 20, 25] : List ℤ).map (fun (w : ℤ) => (w : ℝ))).sum) = 100 := by
      norm_num
    rw [hsum]
    simp only [List.map_cons, List.map_nil]
    have h30 : (100 : ℝ) * (((30 : ℤ) : ℝ)) / 100 = (((30 : ℤ)) : ℝ) := by push_cast; ring
    have h25 : (100 : ℝ) * (((25 : ℤ) : ℝ)) / 100 = (((25 : ℤ)) : ℝ) := by push_cast; ring
    have h20 : (100 : ℝ) * (((20 : ℤ) : ℝ)) / 100 = (((20 : ℤ)) : ℝ) := by push_cast; ring
    rw [h30, h25, h20, fmt1fR_intCast, fmt1fR_intCast, fmt1fR_intCast]
    rfl
  · rfl

/-- C5: the bar chart's per-bar text annotations display `int(height)` for the
bar heights taken from the bundle's values, so the displayed integers equal
the input values [23, 45, 56, 78, 32] elementwise. -/
theorem c5_bar_annotations (e : EntropySource) (s : RNGState) :
    barAnnotValues ((create_bar_chart (create_sample_data e s).1).1) =
      ((create_sample_data e s).1).values ∧
    ((create_sample_data e s).1).values = [23, 45, 56, 78, 32] := by
  have hv : ((create_sample_data e s).1).values = [23, 45, 56, 78, 32] := rfl
  constructor
  · have hmap : barAnnotValues ((create_bar_chart (create_sample_data e s).1).1) =
        (((create_sample_data e s).1).values.enum.map (fun p => pyIntR ((p.2 : ℝ)))) := by
      simp only [barAnnotValues, figElems, create_bar_chart]
      simp [Function.comp, List.filterMap_cons]
      exact filterMap_eq_map_of_some _ _
    rw [hv] at hmap
    rw [hmap, hv]
    simp only [List.enum, List.enumFrom, List.map_cons, List.map_nil, pyIntR_intCast]
  · exact hv

/-- C7: the subplot grid's bottom-right panel is a step plot of the values
`floor x mod 2` over 100 evenly spaced x values on [0, 10]; every plotted y
value is 0 or 1. -/
theorem c7_step_panel (e : EntropySource) (s : RNGState) :
    (figStep ((create_subplot_grid e s).1)).1 = linspace 0 10 100 ∧
    (figStep ((create_subplot_grid e s).1)).2 =
      (linspace 0 10 100).map (fun x => (((⌊x⌋ % 2 : ℤ) : ℝ))) ∧
    ((figStep ((create_subplot_grid e s).1)).2).length = 100 ∧
    (figStep ((create_subplot_grid e s).1)).2 ⊆ [(0 : ℝ), 1] := by
  have h2 : (figStep ((create_subplot_grid e s).1)).2 =
      (linspace 0 10 100).map (fun x => (((⌊x⌋ % 2 : ℤ) : ℝ))) := rfl
  refine ⟨rfl, h2, ?_, ?_⟩
  · rw [h2]
    simp only [List.length_map, linspace, List.length_range]
  · intro y hy
    rw [h2] at hy
    rcases List.mem_map.mp hy with ⟨x, -, rfl⟩
    have hm : ⌊x⌋ % 2 = 0 ∨ ⌊x⌋ % 2 = 1 := by omega
    rcases hm with hm | hm <;> rw [hm] <;> simp

/-- C8: each bundle-consuming chart builder (line plot, scatter plot, bar
chart, histogram, pie chart) returns a figure with at least one axes (a
non-null Figure) and hands back the bundle unchanged. -/
theorem c8_builders_pure (dat : SampleData) :
    (create_line_plot dat).2 = dat ∧ (create_line_plot dat).1.axesList ≠ [] ∧
    (create_scatter_plot dat).2 = dat ∧ (create_scatter_plot dat).1.axesList ≠ [] ∧
    (create_bar_chart dat).2 = dat ∧ (create_bar_chart dat).1.axesList ≠ [] ∧
    (create_histogram dat).2 = dat ∧ (create_histogram dat).1.axesList ≠ [] ∧
    (create_pie_chart dat).2 = dat ∧ (create_pie_chart dat).1.axesList ≠ [] := by
  refine ⟨rfl, ?_, rfl, ?_, rfl, ?_, rfl, ?_, rfl, ?_⟩ <;>
    simp [create_line_plot, create_scatter_plot, create_bar_chart, create_histogram,
      create_pie_chart]

/-- C9: in the generated bundle, each scatter y value is twice the matching
scatter x value plus a fresh standard-normal draw taken from the seed-42
stream immediately after the 50 x draws (stream positions 50..99). -/
theorem c9_scatter_relation (e : EntropySource) (s : RNGState) (i : Fin 50) :
    ((create_sample_data e s).1).y_scatter.getD i.val 0 =
      2 * ((create_sample_data e s).1).x_scatter.getD i.val 0 +
        e.gauss 42 (50 + i.val) := by
  have hx : ((create_sample_data e s).1).x_scatter =
      (List.range 50).map (fun j => e.gauss 42 j) := by
    simp [create_sample_data, drawGaussList, npSeed]
  have hy : ((create_sample_data e s).1).y_scatter =
      (List.range 50).map (fun j => 2 * e.gauss 42 j + e.gauss 42 (50 + j)) := by
    simp only [create_sample_data, drawGaussList, npSeed]
    rw [zipWith_map_same]
    simp
  rw [hx, hy, getD_map_range _ _ _ _ i.isLt, getD_map_range _ _ _ _ i.isLt]

/-- C10: the subplot grid's random-scatter panel data is drawn from the
seed-42 stream at a position fixed by the draws before it, so it is identical
across any two complete runs of `main`, regardless of the incoming RNG
state. -/
theorem c10_run_determinism (e : EntropySource) (s1 s2 : RNGState) :
    runSubplotScatter e s1 = runSubplotScatter e s2 := rfl

/-- C6 counterexample: the advanced plot's arrow target x-coordinate (π/2) is
not a local-maximum point of the plotted damped sine on [0, 10]; the function
is strictly decreasing through π/2 (its maximum is at arctan 5 < π/2). -/
theorem c6_counterexample :
    ¬ IsLocalMaxOn dampedSine (Set.Icc (0 : ℝ) 10)
      (figArrowTarget create_advanced_plot).1 := by
  have hx : (figArrowTarget create_advanced_plot).1 = π / 2 := rfl
  rw [hx]
  exact dampedSine_not_localMaxOn

/-- C6 (amended): the advanced plot's arrow annotation targets the point
(π/2, exp (-π/10)), which lies on the plotted damped sine curve (its y value
equals the damped sine at π/2) near the curve's first crest, but it is not a
local-maximum point of the damped sine on [0, 10]. -/
theorem c6_arrow_target_on_curve_not_max :
    (figArrowTarget create_advanced_plot).2 =
      dampedSine (figArrowTarget create_advanced_plot).1 ∧
    ¬ IsLocalMaxOn dampedSine (Set.Icc (0 : ℝ) 10)
      (figArrowTarget create_advanced_plot).1 := by
  have hx : (figArrowTarget create_advanced_plot).1 = π / 2 := rfl
  have hy : (figArrowTarget create_advanced_plot).2 = Real.exp (-π / 10) := rfl
  constructor
  · rw [hx, hy]
    unfold dampedSine
    rw [Real.sin_pi_div_two, one_mul]
    congr 1
    ring
  · rw [hx]
    exact dampedSine_not_localMaxOn
